import Mathlib

/-!
Shallow embedding of the transaction-construction package of the
go-algorand-sdk repository (files: the transaction constructors file and the
transaction-builder file), together with proofs about it.

External collaborators (the address codec, base64 decoding, the throwaway
signing step and the group-identifier digest) are modelled as function
parameters of type `String → Except String _` etc.; the package's own code is
translated line by line.  Go's `uint64` arithmetic is `Nat` with an explicit
`% U64` at the one multiplication where overflow matters; Go's
`(value, error)` returns are pairs `_ × Option String`.
-/

namespace AlgoSDK

/-- 2 ^ 64, the modulus of Go uint64 arithmetic. -/
def U64 : Nat := 18446744073709551616

/-- MinTxnFee is v5 consensus params, in microAlgos (source constant). -/
def MinTxnFee : Nat := 1000

/-- Go `copy(dst[:], src)` into a zero-initialised fixed array of `n` bytes:
the first `min n src.length` bytes come from `src`, the rest stay zero. -/
def copyFixed (n : Nat) (src : List Nat) : List Nat :=
  src.take n ++ List.replicate (n - src.length) 0

/-- UTF-8 encoding of one character, as byte values. -/
def utf8Bytes (c : Char) : List Nat :=
  let n := c.toNat
  if n < 128 then [n]
  else if n < 2048 then [192 + n / 64, 128 + n % 64]
  else if n < 65536 then [224 + n / 4096, 128 + (n / 64) % 64, 128 + n % 64]
  else [240 + n / 262144, 128 + (n / 4096) % 64, 128 + (n / 64) % 64, 128 + n % 64]

/-- The byte sequence of a Go string (`[]byte(s)`); its length is Go `len(s)`. -/
def strBytes (s : String) : List Nat :=
  s.data.flatMap utf8Bytes

/-- `types.Address`, a 32-byte array (external `types` package). -/
structure Address where
  bytes : List Nat
deriving DecidableEq, Repr

/-- The Go zero value of `types.Address`: 32 zero bytes. -/
def Address.zero : Address := ⟨List.replicate 32 0⟩

instance : Inhabited Address := ⟨Address.zero⟩

/-- `types.Digest`, a 32-byte hash (external `types` package). -/
structure Digest where
  bytes : List Nat
deriving DecidableEq, Repr

/-- The Go zero value of `types.Digest`: 32 zero bytes. -/
def Digest.zero : Digest := ⟨List.replicate 32 0⟩

instance : Inhabited Digest := ⟨Digest.zero⟩

/-- `types.Header`, the common transaction header (external `types` package);
field defaults are the Go zero values. `Fee`, `FirstValid`, `LastValid` are
uint64-valued (`types.MicroAlgos` / `types.Round`). -/
structure Header where
  Sender : Address := Address.zero
  Fee : Nat := 0
  FirstValid : Nat := 0
  LastValid : Nat := 0
  Note : List Nat := []
  GenesisID : String := ""
  GenesisHash : Digest := Digest.zero
  Group : Digest := Digest.zero
deriving DecidableEq, Repr

instance : Inhabited Header := ⟨{}⟩

/-- `types.PaymentTxnFields` (external `types` package). -/
structure PaymentTxnFields where
  Receiver : Address := Address.zero
  Amount : Nat := 0
  CloseRemainderTo : Address := Address.zero
deriving DecidableEq, Repr

instance : Inhabited PaymentTxnFields := ⟨{}⟩

/-- `types.KeyregTxnFields` (external `types` package); the two participation
keys are 32-byte values. -/
structure KeyregTxnFields where
  VotePK : Digest := Digest.zero
  SelectionPK : Digest := Digest.zero
  VoteFirst : Nat := 0
  VoteLast : Nat := 0
  VoteKeyDilution : Nat := 0
deriving DecidableEq, Repr

instance : Inhabited KeyregTxnFields := ⟨{}⟩

/-- `types.AssetParams` (external `types` package): `UnitName` is a fixed
8-byte array and `AssetName` a fixed 32-byte array, so `len` of them in the
source is 8 and 32. -/
structure AssetParams where
  Total : Nat := 0
  DefaultFrozen : Bool := false
  UnitName : List Nat := List.replicate 8 0
  AssetName : List Nat := List.replicate 32 0
  Manager : Address := Address.zero
  Reserve : Address := Address.zero
  Freeze : Address := Address.zero
  Clawback : Address := Address.zero
deriving DecidableEq, Repr

instance : Inhabited AssetParams := ⟨{}⟩

/-- `types.AssetConfigTxnFields` (external `types` package). -/
structure AssetConfigTxnFields where
  ConfigAsset : Nat := 0
  AssetParams : AssetParams := {}
deriving DecidableEq, Repr

instance : Inhabited AssetConfigTxnFields := ⟨{}⟩

/-- `types.AssetTransferTxnFields` (external `types` package). -/
structure AssetTransferTxnFields where
  XferAsset : Nat := 0
  AssetAmount : Nat := 0
  AssetSender : Address := Address.zero
  AssetReceiver : Address := Address.zero
  AssetCloseTo : Address := Address.zero
deriving DecidableEq, Repr

instance : Inhabited AssetTransferTxnFields := ⟨{}⟩

/-- `types.AssetFreezeTxnFields` (external `types` package). -/
structure AssetFreezeTxnFields where
  FreezeAccount : Address := Address.zero
  FreezeAsset : Nat := 0
  AssetFrozen : Bool := false
deriving DecidableEq, Repr

instance : Inhabited AssetFreezeTxnFields := ⟨{}⟩

/-- `types.StateSchema` (external `types` package). -/
structure StateSchema where
  NumUint : Nat := 0
  NumByteSlice : Nat := 0
deriving DecidableEq, Repr

instance : Inhabited StateSchema := ⟨{}⟩

/-- `types.ApplicationCallTxnFields` (external `types` package). -/
structure ApplicationCallTxnFields where
  ApplicationID : Nat := 0
  OnCompletion : Nat := 0
  ApplicationArgs : List (List Nat) := []
  Accounts : List Address := []
  ForeignApps : List Nat := []
  LocalStateSchema : StateSchema := {}
  GlobalStateSchema : StateSchema := {}
deriving DecidableEq, Repr

instance : Inhabited ApplicationCallTxnFields := ⟨{}⟩

/-- `types.Transaction` (external `types` package): the type tag (Go field
`Type`, a string such as "pay" / "keyreg" / "acfg"), the embedded `Header`,
and the per-kind field sets. -/
structure Transaction where
  TxType : String := ""
  Header : Header := {}
  KeyregTxnFields : KeyregTxnFields := {}
  PaymentTxnFields : PaymentTxnFields := {}
  AssetConfigTxnFields : AssetConfigTxnFields := {}
  AssetTransferTxnFields : AssetTransferTxnFields := {}
  AssetFreezeTxnFields : AssetFreezeTxnFields := {}
  ApplicationCallTxnFields : ApplicationCallTxnFields := {}
deriving DecidableEq, Repr

instance : Inhabited Transaction := ⟨{}⟩

/-- `types.PaymentTx` ("pay"). -/
def PaymentTx : String := "pay"

/-- `types.KeyRegistrationTx` ("keyreg"). -/
def KeyRegistrationTx : String := "keyreg"

/-- `types.AssetConfigTx` ("acfg"). -/
def AssetConfigTx : String := "acfg"

/-- Promoted field `tx.Sender` (from the embedded `Header`). -/
def Transaction.Sender (t : Transaction) : Address := t.Header.Sender

/-- Promoted field `tx.Fee`. -/
def Transaction.Fee (t : Transaction) : Nat := t.Header.Fee

/-- Promoted field `tx.Group`. -/
def Transaction.Group (t : Transaction) : Digest := t.Header.Group

/-- Promoted field `tx.AssetParams` (from the embedded `AssetConfigTxnFields`). -/
def Transaction.AssetParams (t : Transaction) : AssetParams :=
  t.AssetConfigTxnFields.AssetParams

/-- Go assignment `tx.Fee = f`. -/
def Transaction.setFee (t : Transaction) (f : Nat) : Transaction :=
  { t with Header := { t.Header with Fee := f } }

/-- Go assignment `tx.Group = g`. -/
def Transaction.setGroup (t : Transaction) (g : Digest) : Transaction :=
  { t with Header := { t.Header with Group := g } }

/-- Go assignment `tx.AssetParams = p`. -/
def Transaction.setAssetParams (t : Transaction) (p : AlgoSDK.AssetParams) : Transaction :=
  { t with AssetConfigTxnFields := { t.AssetConfigTxnFields with AssetParams := p } }

/-- Proof-side invariant: `u` agrees with `tx` on the type tag, `Total`,
`DefaultFrozen` and the whole header. -/
def paramsInv (tx u : Transaction) : Prop :=
  u.TxType = tx.TxType ∧
  u.AssetParams.Total = tx.AssetParams.Total ∧
  u.AssetParams.DefaultFrozen = tx.AssetParams.DefaultFrozen ∧
  u.Header = tx.Header

/-!
The source functions.  External collaborators appear as parameters:
`dec` for `types.DecodeAddress`, `b64` for `base64.StdEncoding.DecodeString`
(returning the decoded byte slice), `sign` for the composite of
`crypto.GenerateAccount` and `crypto.SignTransaction` inside `estimateSize`
(returning the signed encoding), and `cg` for `crypto.ComputeGroupID`.
-/

/-- `byte32FromBase64` decodes the input base64 string and outputs a 32-byte
array, erroring if the input is the wrong length; the named return `out` is
the zero array on the error paths. -/
def byte32FromBase64 (b64 : String → Except String (List Nat)) (inp : String) :
    List Nat × Option String :=
  match b64 inp with
  | Except.error e => (List.replicate 32 0, some e)
  | Except.ok slice =>
    if slice.length ≠ 32 then (List.replicate 32 0, some "Input is not 32 bytes")
    else (copyFixed 32 slice, none)

/-- `estimateSize` returns the estimated length of the encoded transaction:
it signs the transaction with a freshly generated throwaway key and measures
the signed encoding; the key generation and signing are the external `sign`
parameter. -/
def estimateSize (sign : Transaction → Except String (List Nat))
    (txn : Transaction) : Except String Nat :=
  match sign txn with
  | Except.error e => Except.error e
  | Except.ok stx => Except.ok stx.length

/-- `MakePaymentTxn` constructs a payment transaction using the passed
parameters; `fee` is fee per byte. -/
def MakePaymentTxn (dec : String → Except String Address)
    (sign : Transaction → Except String (List Nat))
    (fromStr toStr : String) (fee amount firstRound lastRound : Nat) (note : List Nat)
    (closeRemainderTo genesisID : String) (genesisHash : List Nat) :
    Transaction × Option String :=
  match dec fromStr with
  | Except.error e => (default, some e)
  | Except.ok fromAddr =>
  match dec toStr with
  | Except.error e => (default, some e)
  | Except.ok toAddr =>
  match (if closeRemainderTo = "" then Except.ok Address.zero
         else dec closeRemainderTo) with
  | Except.error e => (default, some e)
  | Except.ok closeRemainderToAddr =>
  if genesisHash.length = 0 then
    (default, some "payment transaction must contain a genesisHash")
  else
    let gh : Digest := ⟨copyFixed 32 genesisHash⟩
    let tx : Transaction :=
      { TxType := PaymentTx
        Header := { Sender := fromAddr, Fee := fee, FirstValid := firstRound,
                    LastValid := lastRound, Note := note, GenesisID := genesisID,
                    GenesisHash := gh }
        PaymentTxnFields := { Receiver := toAddr, Amount := amount,
                              CloseRemainderTo := closeRemainderToAddr } }
    match estimateSize sign tx with
    | Except.error e => (default, some e)
    | Except.ok eSize =>
      let tx := tx.setFee ((eSize * fee) % U64)
      let tx := if tx.Fee < MinTxnFee then tx.setFee MinTxnFee else tx
      (tx, none)

/-- `MakePaymentTxnWithFlatFee` constructs a payment transaction; `fee` is a
flat fee. -/
def MakePaymentTxnWithFlatFee (dec : String → Except String Address)
    (sign : Transaction → Except String (List Nat))
    (fromStr toStr : String) (fee amount firstRound lastRound : Nat) (note : List Nat)
    (closeRemainderTo genesisID : String) (genesisHash : List Nat) :
    Transaction × Option String :=
  match MakePaymentTxn dec sign fromStr toStr fee amount firstRound lastRound note
      closeRemainderTo genesisID genesisHash with
  | (_, some e) => (default, some e)
  | (tx, none) =>
    let tx := tx.setFee fee
    let tx := if tx.Fee < MinTxnFee then tx.setFee MinTxnFee else tx
    (tx, none)

/-- `MakeKeyRegTxn` constructs a keyreg transaction; `feePerByte` is fee per
byte, the genesis hash and both participation keys arrive base64-encoded. -/
def MakeKeyRegTxn (dec : String → Except String Address)
    (b64 : String → Except String (List Nat))
    (sign : Transaction → Except String (List Nat))
    (account : String) (feePerByte firstRound lastRound : Nat) (note : List Nat)
    (genesisID genesisHash : String) (voteKey selectionKey : String)
    (voteFirst voteLast voteKeyDilution : Nat) :
    Transaction × Option String :=
  match dec account with
  | Except.error e => (default, some e)
  | Except.ok accountAddr =>
  match byte32FromBase64 b64 genesisHash with
  | (_, some e) => (default, some e)
  | (ghBytes, none) =>
  match byte32FromBase64 b64 voteKey with
  | (_, some e) => (default, some e)
  | (votePKBytes, none) =>
  match byte32FromBase64 b64 selectionKey with
  | (_, some e) => (default, some e)
  | (selectionPKBytes, none) =>
  let tx : Transaction :=
    { TxType := KeyRegistrationTx
      Header := { Sender := accountAddr, Fee := feePerByte,
                  FirstValid := firstRound, LastValid := lastRound, Note := note,
                  GenesisHash := ⟨ghBytes⟩, GenesisID := genesisID }
      KeyregTxnFields := { VotePK := ⟨votePKBytes⟩,
                           SelectionPK := ⟨selectionPKBytes⟩,
                           VoteFirst := voteFirst, VoteLast := voteLast,
                           VoteKeyDilution := voteKeyDilution } }
  match estimateSize sign tx with
  | Except.error e => (default, some e)
  | Except.ok eSize =>
    let tx := tx.setFee ((eSize * feePerByte) % U64)
    let tx := if tx.Fee < MinTxnFee then tx.setFee MinTxnFee else tx
    (tx, none)

/-- `MakeKeyRegTxnWithFlatFee` constructs a keyreg transaction; `fee` is a
flat fee. -/
def MakeKeyRegTxnWithFlatFee (dec : String → Except String Address)
    (b64 : String → Except String (List Nat))
    (sign : Transaction → Except String (List Nat))
    (account : String) (fee firstRound lastRound : Nat) (note : List Nat)
    (genesisID genesisHash : String) (voteKey selectionKey : String)
    (voteFirst voteLast voteKeyDilution : Nat) :
    Transaction × Option String :=
  match MakeKeyRegTxn dec b64 sign account fee firstRound lastRound note
      genesisID genesisHash voteKey selectionKey voteFirst voteLast
      voteKeyDilution with
  | (_, some e) => (default, some e)
  | (tx, none) =>
    let tx := tx.setFee fee
    let tx := if tx.Fee < MinTxnFee then tx.setFee MinTxnFee else tx
    (tx, none)

/-- The `if field != "" { decode; on error return tx, err }` pattern of
`MakeAssetCreateTxn`: on a decode failure the partially built `tx` is
returned alongside the error (source: `return tx, err`). -/
def setOptionalAddr (dec : String → Except String Address) (s : String)
    (set : Transaction → Address → Transaction) (tx : Transaction) :
    Transaction × Option String :=
  if s = "" then (tx, none)
  else
    match dec s with
    | Except.error e => (tx, some e)
    | Except.ok a => (set tx a, none)

/-- Sequencing of the Go early-return pattern on `(Transaction, error)`. -/
def goSeq (r : Transaction × Option String)
    (f : Transaction → Transaction × Option String) : Transaction × Option String :=
  match r with
  | (tx, some e) => (tx, some e)
  | (tx, none) => f tx

/-- The optional-address and name-length phase of `MakeAssetCreateTxn`
(source lines between the AssetParams assignment and the header fill-in):
decode the four optional addresses, then validate and copy the unit and
asset names; on any failure the partially built `tx` accompanies the
error. -/
def assetParamsPhase (dec : String → Except String Address)
    (manager reserve frz clawback unitName assetName : String)
    (tx : Transaction) : Transaction × Option String :=
  goSeq (setOptionalAddr dec manager
      (fun t a => t.setAssetParams { t.AssetParams with Manager := a }) tx) fun tx =>
  goSeq (setOptionalAddr dec reserve
      (fun t a => t.setAssetParams { t.AssetParams with Reserve := a }) tx) fun tx =>
  goSeq (setOptionalAddr dec frz
      (fun t a => t.setAssetParams { t.AssetParams with Freeze := a }) tx) fun tx =>
  goSeq (setOptionalAddr dec clawback
      (fun t a => t.setAssetParams { t.AssetParams with Clawback := a }) tx) fun tx =>
  if (strBytes unitName).length > 8 then
    (tx, some ("asset unit name " ++ unitName ++ " too long (max 8 bytes)"))
  else
  let tx := tx.setAssetParams
    { tx.AssetParams with UnitName := copyFixed 8 (strBytes unitName) }
  if (strBytes assetName).length > 32 then
    (tx, some ("asset name " ++ assetName ++ " too long (max 32 bytes)"))
  else
  let tx := tx.setAssetParams
    { tx.AssetParams with AssetName := copyFixed 32 (strBytes assetName) }
  (tx, none)

/-- The opening lines of `MakeAssetCreateTxn`: the zero-valued record with
the type tag and the fresh AssetParams assigned. -/
def assetInitTx (total : Nat) (defaultFrozen : Bool) : Transaction :=
  let tx : Transaction := default
  let tx := { tx with TxType := AssetConfigTx }
  tx.setAssetParams { Total := total, DefaultFrozen := defaultFrozen }

/-- The closing lines of `MakeAssetCreateTxn`: decode the sender, decode the
genesis hash, fill in the header and compute the fee (no `MinTxnFee` clamp
in the source here). -/
def assetFinishPhase (dec : String → Except String Address)
    (b64 : String → Except String (List Nat))
    (sign : Transaction → Except String (List Nat))
    (account : String) (feePerByte firstRound lastRound : Nat)
    (note : List Nat) (genesisID genesisHash : String)
    (tx : Transaction) : Transaction × Option String :=
  match dec account with
  | Except.error e => (default, some e)
  | Except.ok accountAddr =>
  match byte32FromBase64 b64 genesisHash with
  | (_, some e) => (default, some e)
  | (ghBytes, none) =>
  match estimateSize sign { tx with
    Header := { Sender := accountAddr, Fee := feePerByte,
                FirstValid := firstRound, LastValid := lastRound,
                GenesisHash := ⟨ghBytes⟩, GenesisID := genesisID,
                Note := note } } with
  | Except.error e => (default, some e)
  | Except.ok eSize =>
    (Transaction.setFee { tx with
      Header := { Sender := accountAddr, Fee := feePerByte,
                  FirstValid := firstRound, LastValid := lastRound,
                  GenesisHash := ⟨ghBytes⟩, GenesisID := genesisID,
                  Note := note } } ((eSize * feePerByte) % U64), none)

/-- `MakeAssetCreateTxn` constructs an asset creation transaction;
`feePerByte` is fee per byte.  Note: the source computes
`tx.Fee = eSize * feePerByte` at the end without the `MinTxnFee` clamp the
other constructors apply. -/
def MakeAssetCreateTxn (dec : String → Except String Address)
    (b64 : String → Except String (List Nat))
    (sign : Transaction → Except String (List Nat))
    (account : String) (feePerByte firstRound lastRound : Nat) (note : List Nat)
    (genesisID genesisHash : String) (total : Nat) (defaultFrozen : Bool)
    (manager reserve frz clawback unitName assetName : String) :
    Transaction × Option String :=
  goSeq (assetParamsPhase dec manager reserve frz clawback unitName assetName
      (assetInitTx total defaultFrozen))
    (assetFinishPhase dec b64 sign account feePerByte firstRound lastRound
      note genesisID genesisHash)

/-- `MakeAssetCreateTxnWithFlatFee` constructs an asset creation transaction;
`fee` is a flat fee. -/
def MakeAssetCreateTxnWithFlatFee (dec : String → Except String Address)
    (b64 : String → Except String (List Nat))
    (sign : Transaction → Except String (List Nat))
    (account : String) (fee firstRound lastRound : Nat) (note : List Nat)
    (genesisID genesisHash : String) (total : Nat) (defaultFrozen : Bool)
    (manager reserve freeze clawback unitName assetName : String) :
    Transaction × Option String :=
  match MakeAssetCreateTxn dec b64 sign account fee firstRound lastRound note
      genesisID genesisHash total defaultFrozen manager reserve freeze clawback
      unitName assetName with
  | (_, some e) => (default, some e)
  | (tx, none) =>
    let tx := tx.setFee fee
    let tx := if tx.Fee < MinTxnFee then tx.setFee MinTxnFee else tx
    (tx, none)

/-- One iteration of the `for _, tx := range txns` loop of `AssignGroupID`:
Go copies the slice cell into the local `tx`; `tx.Group = gid` writes only
that copy, and `append` copies it again into `result`.  The slice cell is
never written, so the iteration returns the cell unchanged next to the grown
result. -/
def assignGroupIter (gid : Digest) (keep : Transaction → Bool)
    (cell : Transaction) (result : List Transaction) :
    Transaction × List Transaction :=
  let tx := cell
  if keep tx then (cell, result ++ [tx.setGroup gid])
  else (cell, result)

/-- The range loop of `AssignGroupID` over the caller's slice, returning the
slice contents after the loop together with the accumulated `result`. -/
def assignGroupLoop (gid : Digest) (keep : Transaction → Bool) :
    List Transaction → List Transaction → List Transaction × List Transaction
  | [], result => ([], result)
  | cell :: rest, result =>
    let s := assignGroupIter gid keep cell result
    let r := assignGroupLoop gid keep rest s.2
    (s.1 :: r.1, r.2)

/-- `AssignGroupID` together with the caller's view of the input slice after
the call: the first component is the input slice after the loop, the second
the returned `result`, the third the returned error. -/
def AssignGroupIDFull (cg : List Transaction → Except String Digest)
    (dec : String → Except String Address)
    (txns : List Transaction) (account : String) :
    (List Transaction × List Transaction) × Option String :=
  match cg txns with
  | Except.error e => ((txns, []), some e)
  | Except.ok gid =>
    match (if account = "" then Except.ok Address.zero else dec account) with
    | Except.error e => ((txns, []), some e)
    | Except.ok decoded =>
      (assignGroupLoop gid
        (fun tx => decide (account = "") || decide (tx.Sender = decoded)) txns [],
       none)

/-- `AssignGroupID` computes and returns the list of transactions with the
`Group` field set; `account` filters which senders are returned ("" returns
all of them). -/
def AssignGroupID (cg : List Transaction → Except String Digest)
    (dec : String → Except String Address)
    (txns : List Transaction) (account : String) :
    List Transaction × Option String :=
  let r := AssignGroupIDFull cg dec txns account
  (r.1.2, r.2)

/-- A Go runtime panic reachable in this package. -/
inductive GoPanic where
  | nilDereference
deriving DecidableEq, Repr

/-- `TransactionBuilder` (builder file): the type tag, the embedded `Header`
and the per-kind field sets. -/
structure TransactionBuilder where
  TxType : String := ""
  Header : Header := {}
  KeyregTxnFields : KeyregTxnFields := {}
  PaymentTxnFields : PaymentTxnFields := {}
  AssetConfigTxnFields : AssetConfigTxnFields := {}
  AssetTransferTxnFields : AssetTransferTxnFields := {}
  AssetFreezeTxnFields : AssetFreezeTxnFields := {}
  ApplicationCallTxnFields : ApplicationCallTxnFields := {}
deriving DecidableEq, Repr

instance : Inhabited TransactionBuilder := ⟨{}⟩

/-- The assignment sequence of `buildT` applied to an allocated target:
the type tag and the six per-kind field sets are copied; the embedded
`Header` is not among the assignments. -/
def TransactionBuilder.buildAssignments (tb : TransactionBuilder)
    (tx : Transaction) : Transaction :=
  let tx := { tx with TxType := tb.TxType }
  let tx := { tx with KeyregTxnFields := tb.KeyregTxnFields }
  let tx := { tx with PaymentTxnFields := tb.PaymentTxnFields }
  let tx := { tx with AssetConfigTxnFields := tb.AssetConfigTxnFields }
  let tx := { tx with AssetTransferTxnFields := tb.AssetTransferTxnFields }
  let tx := { tx with AssetFreezeTxnFields := tb.AssetFreezeTxnFields }
  let tx := { tx with ApplicationCallTxnFields := tb.ApplicationCallTxnFields }
  tx

/-- `buildT`: the named return `tx *types.Transaction` starts as the nil
pointer (modelled as `Option.none`); the first statement `tx.Type = tb.Type`
dereferences it, so the assignments are reached only on an allocated
pointee. -/
def TransactionBuilder.buildT (tb : TransactionBuilder) :
    Except GoPanic Transaction :=
  let tx : Option Transaction := none
  match tx with
  | none => Except.error GoPanic.nilDereference
  | some t => Except.ok (tb.buildAssignments t)

/-!
Concrete instances of the external collaborators, used to evaluate the
embedded functions on closed inputs.
-/

/-- Sample address codec: fails on the empty string, decodes any other string
to the 32-byte array of its bytes (zero-padded). -/
def decS : String → Except String Address := fun s =>
  if s = "" then Except.error "could not decode empty address"
  else Except.ok ⟨copyFixed 32 (strBytes s)⟩

/-- Sample address codec differing from `decS` only on the empty string. -/
def decD : String → Except String Address := fun s =>
  if s = "" then Except.ok ⟨copyFixed 32 [1]⟩
  else decS s

/-- Sample base64 decoder: "GH" decodes to 32 bytes of value 7, "B1" to a
single byte, anything else is malformed. -/
def b64S : String → Except String (List Nat) := fun s =>
  if s = "GH" then Except.ok (List.replicate 32 7)
  else if s = "B1" then Except.ok [1]
  else Except.error "illegal base64 data"

/-- Sample signer: every transaction signs to a 250-byte encoding. -/
def signS : Transaction → Except String (List Nat) := fun _ =>
  Except.ok (List.replicate 250 0)

/-- Sample signer with a 2-byte encoding, to exercise uint64 overflow. -/
def sign2 : Transaction → Except String (List Nat) := fun _ =>
  Except.ok (List.replicate 2 0)

/-- Sample group digest: 32 bytes of the input length. -/
def cgS : List Transaction → Except String Digest := fun l =>
  Except.ok ⟨List.replicate 32 (l.length % 256)⟩

/-- The transaction `MakePaymentTxn` assembles before the fee update, given
the decoded addresses. -/
def paymentPreFeeTx (a b c : Address) (fee amount firstRound lastRound : Nat)
    (note : List Nat) (genesisID : String) (genesisHash : List Nat) :
    Transaction :=
  { TxType := PaymentTx
    Header := { Sender := a, Fee := fee, FirstValid := firstRound,
                LastValid := lastRound, Note := note, GenesisID := genesisID,
                GenesisHash := ⟨copyFixed 32 genesisHash⟩ }
    PaymentTxnFields := { Receiver := b, Amount := amount,
                          CloseRemainderTo := c } }

/-!  Helper lemmas.  -/

theorem copyFixed_length (n : Nat) (src : List Nat) :
    (copyFixed n src).length = n := by
  simp only [copyFixed, List.length_append, List.length_take,
    List.length_replicate]
  omega

theorem copyFixed_of_length_eq {n : Nat} {src : List Nat}
    (h : src.length = n) : copyFixed n src = src := by
  simp [copyFixed, h, List.take_of_length_le (le_of_eq h)]

theorem assignGroupLoop_fst (gid : Digest) (keep : Transaction → Bool)
    (l acc : List Transaction) : (assignGroupLoop gid keep l acc).1 = l := by
  induction l generalizing acc with
  | nil => rfl
  | cons x xs ih =>
    by_cases hx : keep x <;>
      simp [assignGroupLoop, assignGroupIter, hx, ih]

theorem assignGroupLoop_snd (gid : Digest) (keep : Transaction → Bool)
    (l acc : List Transaction) :
    (assignGroupLoop gid keep l acc).2
      = acc ++ (l.filter keep).map (fun tx => tx.setGroup gid) := by
  induction l generalizing acc with
  | nil => simp [assignGroupLoop]
  | cons x xs ih =>
    by_cases hx : keep x <;>
      simp [assignGroupLoop, assignGroupIter, hx, ih]

theorem goSeq_cases (r : Transaction × Option String)
    (f : Transaction → Transaction × Option String) :
    (r.2 ≠ none ∧ goSeq r f = r) ∨ (r.2 = none ∧ goSeq r f = f r.1) := by
  rcases r with ⟨tx, e⟩
  cases e with
  | none => exact Or.inr ⟨rfl, rfl⟩
  | some e => exact Or.inl ⟨by simp, rfl⟩

theorem setOptionalAddr_fst_Header (dec : String → Except String Address)
    (s : String) (set : Transaction → Address → Transaction) (tx : Transaction)
    (hset : ∀ t a, (set t a).Header = t.Header) :
    (setOptionalAddr dec s set tx).1.Header = tx.Header := by
  unfold setOptionalAddr
  split
  · rfl
  · cases dec s with
    | error e => rfl
    | ok a => exact hset tx a

theorem goSeq_fst_Header (r : Transaction × Option String)
    (f : Transaction → Transaction × Option String) (H : Header)
    (hr : r.1.Header = H) (hf : ∀ t, t.Header = H → (f t).1.Header = H) :
    (goSeq r f).1.Header = H := by
  rcases r with ⟨tx, e⟩
  cases e with
  | none => exact hf tx hr
  | some e => exact hr

/-- The optional-address / name-length phase never touches the header. -/
theorem assetParamsPhase_fst_Header (dec : String → Except String Address)
    (manager reserve frz clawback unitName assetName : String)
    (tx : Transaction) :
    (assetParamsPhase dec manager reserve frz clawback unitName assetName
      tx).1.Header = tx.Header := by
  unfold assetParamsPhase
  refine goSeq_fst_Header _ _ tx.Header ?_ ?_
  · exact setOptionalAddr_fst_Header dec manager
      (fun t a => t.setAssetParams { t.AssetParams with Manager := a }) tx
      (fun t a => rfl)
  intro t1 h1
  refine goSeq_fst_Header _ _ tx.Header ?_ ?_
  · exact (setOptionalAddr_fst_Header dec reserve
      (fun t a => t.setAssetParams { t.AssetParams with Reserve := a }) t1
      (fun t a => rfl)).trans h1
  intro t2 h2
  refine goSeq_fst_Header _ _ tx.Header ?_ ?_
  · exact (setOptionalAddr_fst_Header dec frz
      (fun t a => t.setAssetParams { t.AssetParams with Freeze := a }) t2
      (fun t a => rfl)).trans h2
  intro t3 h3
  refine goSeq_fst_Header _ _ tx.Header ?_ ?_
  · exact (setOptionalAddr_fst_Header dec clawback
      (fun t a => t.setAssetParams { t.AssetParams with Clawback := a }) t3
      (fun t a => rfl)).trans h3
  intro t4 h4
  try dsimp only []
  split
  · exact h4
  · split
    · exact h4
    · exact h4

theorem setOptionalAddr_fst_pred (P : Transaction → Prop)
    (dec : String → Except String Address) (s : String)
    (set : Transaction → Address → Transaction) (tx : Transaction)
    (hset : ∀ t a, P t → P (set t a)) (htx : P tx) :
    P (setOptionalAddr dec s set tx).1 := by
  unfold setOptionalAddr
  split
  · exact htx
  · cases dec s with
    | error e => exact htx
    | ok a => exact hset tx a htx

theorem goSeq_fst_pred (P : Transaction → Prop)
    (r : Transaction × Option String)
    (f : Transaction → Transaction × Option String)
    (hr : P r.1) (hf : ∀ t, P t → P (f t).1) :
    P (goSeq r f).1 := by
  rcases r with ⟨tx, e⟩
  cases e with
  | none => exact hf tx hr
  | some e => exact hr

/-- The optional-address / name-length phase only writes the optional
address fields and the two names: the type tag, `Total`, `DefaultFrozen`
and the header pass through unchanged. -/
theorem assetParamsPhase_fst_inv (dec : String → Except String Address)
    (manager reserve frz clawback unitName assetName : String)
    (tx : Transaction) :
    (assetParamsPhase dec manager reserve frz clawback unitName assetName
      tx).1.TxType = tx.TxType ∧
    (assetParamsPhase dec manager reserve frz clawback unitName assetName
      tx).1.AssetParams.Total = tx.AssetParams.Total ∧
    (assetParamsPhase dec manager reserve frz clawback unitName assetName
      tx).1.AssetParams.DefaultFrozen = tx.AssetParams.DefaultFrozen ∧
    (assetParamsPhase dec manager reserve frz clawback unitName assetName
      tx).1.Header = tx.Header := by
  have key : paramsInv tx (assetParamsPhase dec manager reserve frz clawback
      unitName assetName tx).1 := by
    unfold assetParamsPhase
    refine goSeq_fst_pred (paramsInv tx) _ _ ?_ ?_
    · exact setOptionalAddr_fst_pred (paramsInv tx) dec manager
        (fun t a => t.setAssetParams { t.AssetParams with Manager := a }) tx
        (fun t a hp => hp) ⟨rfl, rfl, rfl, rfl⟩
    intro t1 h1
    refine goSeq_fst_pred (paramsInv tx) _ _ ?_ ?_
    · exact setOptionalAddr_fst_pred (paramsInv tx) dec reserve
        (fun t a => t.setAssetParams { t.AssetParams with Reserve := a }) t1
        (fun t a hp => hp) h1
    intro t2 h2
    refine goSeq_fst_pred (paramsInv tx) _ _ ?_ ?_
    · exact setOptionalAddr_fst_pred (paramsInv tx) dec frz
        (fun t a => t.setAssetParams { t.AssetParams with Freeze := a }) t2
        (fun t a hp => hp) h2
    intro t3 h3
    refine goSeq_fst_pred (paramsInv tx) _ _ ?_ ?_
    · exact setOptionalAddr_fst_pred (paramsInv tx) dec clawback
        (fun t a => t.setAssetParams { t.AssetParams with Clawback := a }) t3
        (fun t a hp => hp) h3
    intro t4 h4
    try dsimp only []
    split
    · exact h4
    · split
      · exact h4
      · exact h4
  exact key

/-- Every error path of the finish phase (sender decode, genesis-hash
decode, size estimation) returns the zero record. -/
theorem assetFinishPhase_err_zero (dec : String → Except String Address)
    (b64 : String → Except String (List Nat))
    (sign : Transaction → Except String (List Nat))
    (account : String) (feePerByte firstRound lastRound : Nat)
    (note : List Nat) (genesisID genesisHash : String) (tx : Transaction) :
    (assetFinishPhase dec b64 sign account feePerByte firstRound lastRound
      note genesisID genesisHash tx).2 ≠ none →
    (assetFinishPhase dec b64 sign account feePerByte firstRound lastRound
      note genesisID genesisHash tx).1 = default := by
  unfold assetFinishPhase
  repeat' split
  all_goals intro h
  all_goals first
    | rfl
    | exact absurd rfl h

/-- With the four optional addresses empty, the phase never consults the
address codec: any two codecs give the same result. -/
theorem assetParamsPhase_empty_dec (dec dec2 : String → Except String Address)
    (unitName assetName : String) (tx : Transaction) :
    assetParamsPhase dec "" "" "" "" unitName assetName tx
      = assetParamsPhase dec2 "" "" "" "" unitName assetName tx := rfl

/-- With the four optional addresses empty, a successful phase leaves the
four address fields as they were. -/
theorem assetParamsPhase_empty_params (dec : String → Except String Address)
    (unitName assetName : String) (tx tx2 : Transaction)
    (h : assetParamsPhase dec "" "" "" "" unitName assetName tx
      = (tx2, none)) :
    tx2.AssetParams.Manager = tx.AssetParams.Manager ∧
    tx2.AssetParams.Reserve = tx.AssetParams.Reserve ∧
    tx2.AssetParams.Freeze = tx.AssetParams.Freeze ∧
    tx2.AssetParams.Clawback = tx.AssetParams.Clawback := by
  unfold assetParamsPhase setOptionalAddr goSeq at h
  simp only [reduceIte] at h
  split at h
  · simp at h
  · try dsimp only [] at h
    split at h
    · simp at h
    · rw [Prod.mk.injEq] at h
      rcases h with ⟨h1, -⟩
      subst h1
      exact ⟨rfl, rfl, rfl, rfl⟩

theorem assetFinishPhase_err_Header (dec : String → Except String Address)
    (b64 : String → Except String (List Nat))
    (sign : Transaction → Except String (List Nat))
    (account : String) (feePerByte firstRound lastRound : Nat)
    (note : List Nat) (genesisID genesisHash : String) (tx : Transaction) :
    (assetFinishPhase dec b64 sign account feePerByte firstRound lastRound
      note genesisID genesisHash tx).2 ≠ none →
    (assetFinishPhase dec b64 sign account feePerByte firstRound lastRound
      note genesisID genesisHash tx).1.Header = default := by
  unfold assetFinishPhase
  repeat' split
  all_goals intro h
  all_goals first
    | rfl
    | exact absurd rfl h

theorem assetFinishPhase_ok_params (dec : String → Except String Address)
    (b64 : String → Except String (List Nat))
    (sign : Transaction → Except String (List Nat))
    (account : String) (feePerByte firstRound lastRound : Nat)
    (note : List Nat) (genesisID genesisHash : String) (tx : Transaction) :
    (assetFinishPhase dec b64 sign account feePerByte firstRound lastRound
      note genesisID genesisHash tx).2 = none →
    (assetFinishPhase dec b64 sign account feePerByte firstRound lastRound
      note genesisID genesisHash tx).1.AssetParams = tx.AssetParams := by
  unfold assetFinishPhase
  repeat' split
  all_goals intro h
  all_goals first
    | rfl
    | simp at h

theorem assetFinishPhase_dec_congr (dec dec2 : String → Except String Address)
    (b64 : String → Except String (List Nat))
    (sign : Transaction → Except String (List Nat))
    (account : String) (feePerByte firstRound lastRound : Nat)
    (note : List Nat) (genesisID genesisHash : String)
    (hacct : dec account = dec2 account) :
    assetFinishPhase dec b64 sign account feePerByte firstRound lastRound
      note genesisID genesisHash
      = assetFinishPhase dec2 b64 sign account feePerByte firstRound lastRound
        note genesisID genesisHash := by
  funext tx
  unfold assetFinishPhase
  rw [hacct]

/-!  The claims.  -/

/-- Claim C8: for every input string, byte32FromBase64 returns an error
exactly when the base64 payload is malformed or its decoded length is not 32
bytes, and otherwise returns the 32 decoded bytes as a fixed array; it never
returns a partially filled array together with success (the output always has
32 bytes). -/
theorem C8_byte32FromBase64_spec (b64 : String → Except String (List Nat))
    (s : String) :
    ((byte32FromBase64 b64 s).2 = none ↔
      ∃ slice, b64 s = Except.ok slice ∧ slice.length = 32) ∧
    (∀ slice, b64 s = Except.ok slice → slice.length = 32 →
      (byte32FromBase64 b64 s).1 = slice) ∧
    (byte32FromBase64 b64 s).1.length = 32 := by
  unfold byte32FromBase64
  cases hb : b64 s with
  | error e =>
    refine ⟨⟨fun h => by simp at h, ?_⟩, fun slice hs => by simp at hs, by simp⟩
    rintro ⟨slice, hs, -⟩
    simp at hs
  | ok slice =>
    by_cases hl : slice.length = 32
    · simp only [hl]
      refine ⟨⟨fun _ => ⟨slice, rfl, hl⟩, fun _ => by simp⟩, ?_, ?_⟩
      · intro slice2 hs2 hl2
        cases hs2
        simp [copyFixed_of_length_eq hl]
      · simp [copyFixed_length]
    · simp only [hl]
      refine ⟨⟨fun h => by simp [hl] at h, ?_⟩, ?_, by simp [hl]⟩
      · rintro ⟨slice2, hs2, hl2⟩
        cases hs2
        exact absurd hl2 hl
      · intro slice2 hs2 hl2
        cases hs2
        exact absurd hl2 hl

/-- Witness for C8: the sample decoder on "GH" yields success and the 32
decoded bytes. -/
theorem C8_witness :
    (byte32FromBase64 b64S "GH").2 = none ∧
    (byte32FromBase64 b64S "GH").1 = List.replicate 32 7 := by
  have h := C8_byte32FromBase64_spec b64S "GH"
  exact ⟨h.1.mpr ⟨List.replicate 32 7, rfl, by decide⟩,
    h.2.1 (List.replicate 32 7) rfl (by decide)⟩

/-- Claim C9: for every input list and filter, AssignGroupID leaves the
caller's input slice unchanged — the range loop copies each element into a
local variable, sets Group only on that copy, and appends the copy to the
result, so the input cells after the call equal the input. -/
theorem C9_AssignGroupID_input_unchanged
    (cg : List Transaction → Except String Digest)
    (dec : String → Except String Address)
    (txns : List Transaction) (account : String) :
    (AssignGroupIDFull cg dec txns account).1.1 = txns := by
  unfold AssignGroupIDFull
  cases hcg : cg txns with
  | error e => rfl
  | ok gid =>
    cases hdec : (if account = "" then Except.ok Address.zero
        else dec account) with
    | error e => rfl
    | ok d => exact assignGroupLoop_fst gid _ txns []

/-- Claim C10: buildT writes through its nil named-return pointer (the
pointer is never allocated before the first field assignment), so it never
returns normally; and its assignment sequence never copies the embedded
Header into the result. -/
theorem C10_buildT_nil_write_and_no_header_copy :
    (∀ tb : TransactionBuilder,
      tb.buildT = Except.error GoPanic.nilDereference) ∧
    (∀ (tb : TransactionBuilder) (t : Transaction),
      (tb.buildAssignments t).Header = t.Header) :=
  ⟨fun _ => rfl, fun _ _ => rfl⟩

theorem AssignGroupID_cg_error (cg : List Transaction → Except String Digest)
    (dec : String → Except String Address)
    (txns : List Transaction) (account : String) (e : String)
    (hcg : cg txns = Except.error e) :
    AssignGroupID cg dec txns account = ([], some e) := by
  unfold AssignGroupID AssignGroupIDFull
  rw [hcg]

theorem AssignGroupID_dec_error (cg : List Transaction → Except String Digest)
    (dec : String → Except String Address)
    (txns : List Transaction) (account : String) (gid : Digest) (e : String)
    (hcg : cg txns = Except.ok gid)
    (hdec : (if account = "" then Except.ok Address.zero else dec account)
      = Except.error e) :
    AssignGroupID cg dec txns account = ([], some e) := by
  unfold AssignGroupID AssignGroupIDFull
  rw [hcg, hdec]

theorem AssignGroupID_ok (cg : List Transaction → Except String Digest)
    (dec : String → Except String Address)
    (txns : List Transaction) (account : String) (gid : Digest) (d : Address)
    (hcg : cg txns = Except.ok gid)
    (hdec : (if account = "" then Except.ok Address.zero else dec account)
      = Except.ok d) :
    AssignGroupID cg dec txns account
      = ((txns.filter (fun tx : Transaction =>
            decide (account = "") || decide (tx.Sender = d))).map
          (fun tx : Transaction => tx.setGroup gid), none) := by
  unfold AssignGroupID AssignGroupIDFull
  rw [hcg, hdec]
  simp [assignGroupLoop_snd]

/-- Claim C2: AssignGroupID computes the group identifier over the entire
ordered input list, and returns, in original input order, exactly the
transactions whose Sender equals the decoded filter address (all of them for
the empty filter), each with Group set to that identifier. -/
theorem C2_AssignGroupID_spec (cg : List Transaction → Except String Digest)
    (dec : String → Except String Address)
    (txns : List Transaction) (account : String)
    (h : (AssignGroupID cg dec txns account).2 = none) :
    ∃ gid, cg txns = Except.ok gid ∧
      ((account = "" ∧
        (AssignGroupID cg dec txns account).1
          = txns.map (fun tx : Transaction => tx.setGroup gid)) ∨
       (account ≠ "" ∧ ∃ d, dec account = Except.ok d ∧
        (AssignGroupID cg dec txns account).1
          = (txns.filter (fun tx : Transaction => decide (tx.Sender = d))).map
              (fun tx : Transaction => tx.setGroup gid))) := by
  cases hcg : cg txns with
  | error e =>
    rw [AssignGroupID_cg_error cg dec txns account e hcg] at h
    simp at h
  | ok gid =>
    by_cases hacc : account = ""
    · have heq := AssignGroupID_ok cg dec txns account gid Address.zero hcg
        (by rw [if_pos hacc])
      refine ⟨gid, rfl, Or.inl ⟨hacc, ?_⟩⟩
      have hkeep : (fun tx : Transaction =>
          decide (account = "") || decide (tx.Sender = Address.zero))
          = fun _ : Transaction => true := by
        funext tx
        simp [hacc]
      rw [heq] at *
      rw [hkeep, List.filter_true]
    · cases hdec : dec account with
      | error e =>
        rw [AssignGroupID_dec_error cg dec txns account gid e hcg
          (by rw [if_neg hacc, hdec])] at h
        simp at h
      | ok d =>
        have heq := AssignGroupID_ok cg dec txns account gid d hcg
          (by rw [if_neg hacc, hdec])
        refine ⟨gid, rfl, Or.inr ⟨hacc, d, rfl, ?_⟩⟩
        have hkeep : (fun tx : Transaction =>
            decide (account = "") || decide (tx.Sender = d))
            = fun tx : Transaction => decide (tx.Sender = d) := by
          funext tx
          rw [decide_eq_false hacc, Bool.false_or]
        rw [heq, hkeep]

/-- Witness for C2: one default transaction, no filter; the result is the
input with the computed identifier stamped on. -/
theorem C2_witness :
    ∃ gid, cgS [(default : Transaction)] = Except.ok gid ∧
      ((("" : String) = "" ∧
        (AssignGroupID cgS decS [(default : Transaction)] "").1
          = [(default : Transaction)].map
              (fun tx : Transaction => tx.setGroup gid)) ∨
       (("" : String) ≠ "" ∧ ∃ d, decS "" = Except.ok d ∧
        (AssignGroupID cgS decS [(default : Transaction)] "").1
          = ([(default : Transaction)].filter
              (fun tx : Transaction => decide (tx.Sender = d))).map
              (fun tx : Transaction => tx.setGroup gid))) :=
  C2_AssignGroupID_spec cgS decS [(default : Transaction)] "" rfl

set_option maxRecDepth 8000 in
/-- Claim C1 (code bug): the claim says every constructor clamps the fee to
MinTxnFee, but MakeAssetCreateTxn applies no clamp after
`tx.Fee = eSize * feePerByte`; at feePerByte = 0 it succeeds and returns
Fee = 0 < 1000. -/
theorem C1_MakeAssetCreateTxn_fee_below_floor :
    ((MakeAssetCreateTxn decS b64S signS "ACC" 0 1 100 [] "net" "GH" 5 false
        "" "" "" "" "T" "Token").2 = none) ∧
    ((MakeAssetCreateTxn decS b64S signS "ACC" 0 1 100 [] "net" "GH" 5 false
        "" "" "" "" "T" "Token").1.Header.Fee = 0) := by
  constructor
  · decide
  · decide

theorem MakePaymentTxn_ok (dec : String → Except String Address)
    (sign : Transaction → Except String (List Nat))
    (fromStr toStr : String) (fee amount firstRound lastRound : Nat)
    (note : List Nat) (closeRemainderTo genesisID : String)
    (genesisHash : List Nat) (a b c : Address) (bs : List Nat)
    (hfr : dec fromStr = Except.ok a) (hto : dec toStr = Except.ok b)
    (hclose : (if closeRemainderTo = "" then Except.ok Address.zero
      else dec closeRemainderTo) = Except.ok c)
    (hgh : genesisHash ≠ [])
    (hsign : ∀ t, sign t = Except.ok bs) :
    MakePaymentTxn dec sign fromStr toStr fee amount firstRound lastRound note
        closeRemainderTo genesisID genesisHash
      = ((paymentPreFeeTx a b c fee amount firstRound lastRound note genesisID
            genesisHash).setFee
          (if (bs.length * fee) % U64 < MinTxnFee then MinTxnFee
           else (bs.length * fee) % U64), none) := by
  have hgh0 : ¬ genesisHash.length = 0 := by
    simpa using hgh
  simp only [MakePaymentTxn, hfr, hto, hclose, if_neg hgh0, estimateSize,
    hsign, paymentPreFeeTx, Transaction.setFee, Transaction.Fee]
  split <;> rfl

theorem MakePaymentTxn_empty_gh (dec : String → Except String Address)
    (sign : Transaction → Except String (List Nat))
    (fromStr toStr : String) (fee amount firstRound lastRound : Nat)
    (note : List Nat) (closeRemainderTo genesisID : String)
    (a b c : Address)
    (hfr : dec fromStr = Except.ok a) (hto : dec toStr = Except.ok b)
    (hclose : (if closeRemainderTo = "" then Except.ok Address.zero
      else dec closeRemainderTo) = Except.ok c) :
    MakePaymentTxn dec sign fromStr toStr fee amount firstRound lastRound note
        closeRemainderTo genesisID []
      = (default, some "payment transaction must contain a genesisHash") := by
  simp only [MakePaymentTxn, hfr, hto, hclose]
  rfl

/-- Claim C6: each flat-fee variant delegates to the per-byte constructor
with the same arguments, and on success returns the identical transaction
with Fee replaced by max(flat fee, MinTxnFee); it errors exactly when the
per-byte constructor does. -/
theorem C6_flat_fee_variants
    (dec : String → Except String Address)
    (b64 : String → Except String (List Nat))
    (sign : Transaction → Except String (List Nat))
    (fromStr toStr : String) (fee amount firstRound lastRound : Nat)
    (note : List Nat) (closeRemainderTo genesisID : String)
    (genesisHash : List Nat)
    (account : String) (krFee krFirst krLast : Nat) (krNote : List Nat)
    (krGenID krGenHash voteKey selectionKey : String)
    (voteFirst voteLast voteKeyDilution : Nat)
    (acAccount : String) (acFee acFirst acLast : Nat) (acNote : List Nat)
    (acGenID acGenHash : String) (total : Nat) (defaultFrozen : Bool)
    (manager reserve frz clawback unitName assetName : String) :
    (MakePaymentTxnWithFlatFee dec sign fromStr toStr fee amount firstRound
        lastRound note closeRemainderTo genesisID genesisHash
      = match MakePaymentTxn dec sign fromStr toStr fee amount firstRound
          lastRound note closeRemainderTo genesisID genesisHash with
        | (tx, none) => (tx.setFee (max fee MinTxnFee), none)
        | (_, some e) => (default, some e)) ∧
    (MakeKeyRegTxnWithFlatFee dec b64 sign account krFee krFirst krLast krNote
        krGenID krGenHash voteKey selectionKey voteFirst voteLast
        voteKeyDilution
      = match MakeKeyRegTxn dec b64 sign account krFee krFirst krLast krNote
          krGenID krGenHash voteKey selectionKey voteFirst voteLast
          voteKeyDilution with
        | (tx, none) => (tx.setFee (max krFee MinTxnFee), none)
        | (_, some e) => (default, some e)) ∧
    (MakeAssetCreateTxnWithFlatFee dec b64 sign acAccount acFee acFirst acLast
        acNote acGenID acGenHash total defaultFrozen manager reserve frz
        clawback unitName assetName
      = match MakeAssetCreateTxn dec b64 sign acAccount acFee acFirst acLast
          acNote acGenID acGenHash total defaultFrozen manager reserve frz
          clawback unitName assetName with
        | (tx, none) => (tx.setFee (max acFee MinTxnFee), none)
        | (_, some e) => (default, some e)) := by
  refine ⟨?_, ?_, ?_⟩
  · rcases hp : MakePaymentTxn dec sign fromStr toStr fee amount firstRound
        lastRound note closeRemainderTo genesisID genesisHash with ⟨tx, err⟩
    cases err with
    | none =>
      simp only [MakePaymentTxnWithFlatFee, hp, Transaction.setFee,
        Transaction.Fee]
      by_cases hf : fee < MinTxnFee
      · simp [hf, Nat.max_eq_right (le_of_lt hf)]
      · simp [hf, Nat.max_eq_left (Nat.le_of_not_lt hf)]
    | some e => simp [MakePaymentTxnWithFlatFee, hp]
  · rcases hp : MakeKeyRegTxn dec b64 sign account krFee krFirst krLast krNote
        krGenID krGenHash voteKey selectionKey voteFirst voteLast
        voteKeyDilution with ⟨tx, err⟩
    cases err with
    | none =>
      simp only [MakeKeyRegTxnWithFlatFee, hp, Transaction.setFee,
        Transaction.Fee]
      by_cases hf : krFee < MinTxnFee
      · simp [hf, Nat.max_eq_right (le_of_lt hf)]
      · simp [hf, Nat.max_eq_left (Nat.le_of_not_lt hf)]
    | some e => simp [MakeKeyRegTxnWithFlatFee, hp]
  · rcases hp : MakeAssetCreateTxn dec b64 sign acAccount acFee acFirst acLast
        acNote acGenID acGenHash total defaultFrozen manager reserve frz
        clawback unitName assetName with ⟨tx, err⟩
    cases err with
    | none =>
      simp only [MakeAssetCreateTxnWithFlatFee, hp, Transaction.setFee,
        Transaction.Fee]
      by_cases hf : acFee < MinTxnFee
      · simp [hf, Nat.max_eq_right (le_of_lt hf)]
      · simp [hf, Nat.max_eq_left (Nat.le_of_not_lt hf)]
    | some e => simp [MakeAssetCreateTxnWithFlatFee, hp]

set_option maxRecDepth 8000 in
/-- Counterexample to claim C4: a genesis hash of length 1 (not 32 bytes) is
accepted — MakePaymentTxn only rejects the empty hash. -/
theorem C4_counterexample :
    (([9] : List Nat).length ≠ 32) ∧
    (MakePaymentTxn decS signS "A" "B" 5 1 1 2 [] "" "g" [9]).2 = none := by
  constructor
  · decide
  · decide

/-- Claim C4 amended: MakePaymentTxn fails on the genesis hash exactly when
the supplied slice is empty; a non-empty slice of any length is accepted and
copied into the 32-byte digest (truncated or zero-padded). -/
theorem C4_amended (dec : String → Except String Address)
    (sign : Transaction → Except String (List Nat))
    (fromStr toStr : String) (fee amount firstRound lastRound : Nat)
    (note : List Nat) (genesisID : String) (genesisHash : List Nat)
    (a b : Address) (bs : List Nat)
    (hfr : dec fromStr = Except.ok a) (hto : dec toStr = Except.ok b)
    (hsign : ∀ t, sign t = Except.ok bs) :
    ((MakePaymentTxn dec sign fromStr toStr fee amount firstRound lastRound
        note "" genesisID genesisHash).2 = none ↔ genesisHash ≠ []) ∧
    (genesisHash ≠ [] →
      (MakePaymentTxn dec sign fromStr toStr fee amount firstRound lastRound
        note "" genesisID genesisHash).1.Header.GenesisHash
        = ⟨copyFixed 32 genesisHash⟩) := by
  have hclose : (if ("" : String) = "" then Except.ok Address.zero
      else dec "") = Except.ok Address.zero := if_pos rfl
  constructor
  · constructor
    · intro h
      intro hgh
      subst hgh
      rw [MakePaymentTxn_empty_gh dec sign fromStr toStr fee amount firstRound
        lastRound note "" genesisID a b Address.zero hfr hto hclose] at h
      simp at h
    · intro hgh
      rw [MakePaymentTxn_ok dec sign fromStr toStr fee amount firstRound
        lastRound note "" genesisID genesisHash a b Address.zero bs hfr hto
        hclose hgh hsign]
  · intro hgh
    rw [MakePaymentTxn_ok dec sign fromStr toStr fee amount firstRound
      lastRound note "" genesisID genesisHash a b Address.zero bs hfr hto
      hclose hgh hsign]
    rfl

set_option maxRecDepth 8000 in
/-- Witness for C4 amended: the length-1 hash [9] yields success and a
digest of 9 followed by 31 zeros. -/
theorem C4_witness :
    (MakePaymentTxn decS signS "A" "B" 5 1 1 2 [] "" "g" [9]).2 = none ∧
    (MakePaymentTxn decS signS "A" "B" 5 1 1 2 [] "" "g"
      [9]).1.Header.GenesisHash = ⟨copyFixed 32 [9]⟩ := by
  have h := C4_amended decS signS "A" "B" 5 1 1 2 [] "g" [9]
    ⟨copyFixed 32 (strBytes "A")⟩ ⟨copyFixed 32 (strBytes "B")⟩
    (List.replicate 250 0) rfl rfl (fun t => rfl)
  exact ⟨h.1.mpr (by decide), h.2 (by decide)⟩

set_option maxRecDepth 8000 in
/-- Counterexample to claim C5: with a 2-byte estimated size, raising the
per-byte rate from 2^63 - 1 to 2^63 makes the uint64 product wrap to 0 and
the returned fee drop from 2^64 - 2 to the 1000 floor. -/
theorem C5_counterexample :
    2 ^ 63 - 1 < 2 ^ 63 ∧
    (MakePaymentTxn decS sign2 "A" "B" (2 ^ 63) 0 1 2 [] "" "g"
        [9]).1.Header.Fee
      < (MakePaymentTxn decS sign2 "A" "B" (2 ^ 63 - 1) 0 1 2 [] "" "g"
        [9]).1.Header.Fee := by
  constructor
  · decide
  · decide

/-- Claim C5 amended: for a fixed transaction content (a size estimator that
always reports the same size), increasing the per-byte rate never decreases
the computed Fee, provided the size-times-rate product does not overflow
uint64. -/
theorem C5_amended (dec : String → Except String Address)
    (sign : Transaction → Except String (List Nat))
    (fromStr toStr closeRemainderTo genesisID : String)
    (amount firstRound lastRound : Nat) (note : List Nat)
    (genesisHash : List Nat) (a b c : Address) (bs : List Nat) (r1 r2 : Nat)
    (hfr : dec fromStr = Except.ok a) (hto : dec toStr = Except.ok b)
    (hclose : (if closeRemainderTo = "" then Except.ok Address.zero
      else dec closeRemainderTo) = Except.ok c)
    (hgh : genesisHash ≠ [])
    (hsign : ∀ t, sign t = Except.ok bs)
    (h12 : r1 ≤ r2) (hov : bs.length * r2 < U64) :
    (MakePaymentTxn dec sign fromStr toStr r1 amount firstRound lastRound note
        closeRemainderTo genesisID genesisHash).1.Header.Fee ≤
    (MakePaymentTxn dec sign fromStr toStr r2 amount firstRound lastRound note
        closeRemainderTo genesisID genesisHash).1.Header.Fee := by
  rw [MakePaymentTxn_ok dec sign fromStr toStr r1 amount firstRound lastRound
    note closeRemainderTo genesisID genesisHash a b c bs hfr hto hclose hgh
    hsign]
  rw [MakePaymentTxn_ok dec sign fromStr toStr r2 amount firstRound lastRound
    note closeRemainderTo genesisID genesisHash a b c bs hfr hto hclose hgh
    hsign]
  have h1 : bs.length * r1 ≤ bs.length * r2 := Nat.mul_le_mul_left _ h12
  have hov1 : bs.length * r1 < U64 := lt_of_le_of_lt h1 hov
  show (if (bs.length * r1) % U64 < MinTxnFee then MinTxnFee
      else (bs.length * r1) % U64)
    ≤ (if (bs.length * r2) % U64 < MinTxnFee then MinTxnFee
      else (bs.length * r2) % U64)
  rw [Nat.mod_eq_of_lt hov1, Nat.mod_eq_of_lt hov]
  split <;> split <;> omega

/-- Witness for C5 amended: rates 3 ≤ 5 with a 2-byte size, both fees hit
the floor. -/
theorem C5_witness :
    (MakePaymentTxn decS sign2 "A" "B" 3 0 1 2 [] "" "g" [9]).1.Header.Fee ≤
    (MakePaymentTxn decS sign2 "A" "B" 5 0 1 2 [] "" "g" [9]).1.Header.Fee :=
  C5_amended decS sign2 "A" "B" "" "g" 0 1 2 [] [9]
    ⟨copyFixed 32 (strBytes "A")⟩ ⟨copyFixed 32 (strBytes "B")⟩ Address.zero
    (List.replicate 2 0) 3 5 rfl rfl (if_pos rfl) (by decide) (fun t => rfl)
    (by decide) (by decide)

set_option maxRecDepth 8000 in
/-- Counterexample to claim C3: MakeAssetCreateTxn with an over-long unit
name returns the error together with a partially built record (Type and
AssetParams.Total already set), not an empty/zero record. -/
theorem C3_counterexample :
    ((MakeAssetCreateTxn decS b64S signS "ACC" 5 1 2 [] "g" "GH" 7 false
        "" "" "" "" "123456789" "nm").2 ≠ none) ∧
    ((MakeAssetCreateTxn decS b64S signS "ACC" 5 1 2 [] "g" "GH" 7 false
        "" "" "" "" "123456789" "nm").1 ≠ default) := by
  constructor
  · decide
  · decide

/-- Claim C3 amended: MakePaymentTxn and MakeKeyRegTxn return the zero
record on every error path; MakeAssetCreateTxn returns the zero record on
sender-address, genesis-hash and size-estimation failures (those of the
finish phase), but on optional-address decode and name-length failures
(those of the params phase) it returns the partially built record, with the
type tag and AssetParams (Total, DefaultFrozen) already set — on every asset
error path, however, the returned record's Header is still the zero
header. -/
theorem C3_amended (dec : String → Except String Address)
    (b64 : String → Except String (List Nat))
    (sign : Transaction → Except String (List Nat))
    (fromStr toStr : String) (fee amount firstRound lastRound : Nat)
    (note : List Nat) (closeRemainderTo genesisID : String)
    (genesisHash : List Nat)
    (account : String) (krFee krFirst krLast : Nat) (krNote : List Nat)
    (krGenID krGenHash voteKey selectionKey : String)
    (voteFirst voteLast voteKeyDilution : Nat)
    (acAccount : String) (acFee acFirst acLast : Nat) (acNote : List Nat)
    (acGenID acGenHash : String) (total : Nat) (defaultFrozen : Bool)
    (manager reserve frz clawback unitName assetName : String) :
    ((MakePaymentTxn dec sign fromStr toStr fee amount firstRound lastRound
        note closeRemainderTo genesisID genesisHash).2 ≠ none →
      (MakePaymentTxn dec sign fromStr toStr fee amount firstRound lastRound
        note closeRemainderTo genesisID genesisHash).1 = default) ∧
    ((MakeKeyRegTxn dec b64 sign account krFee krFirst krLast krNote krGenID
        krGenHash voteKey selectionKey voteFirst voteLast
        voteKeyDilution).2 ≠ none →
      (MakeKeyRegTxn dec b64 sign account krFee krFirst krLast krNote krGenID
        krGenHash voteKey selectionKey voteFirst voteLast
        voteKeyDilution).1 = default) ∧
    ((MakeAssetCreateTxn dec b64 sign acAccount acFee acFirst acLast acNote
        acGenID acGenHash total defaultFrozen manager reserve frz clawback
        unitName assetName).2 ≠ none →
      (MakeAssetCreateTxn dec b64 sign acAccount acFee acFirst acLast acNote
        acGenID acGenHash total defaultFrozen manager reserve frz clawback
        unitName assetName).1.Header = default ∧
      (((assetParamsPhase dec manager reserve frz clawback unitName assetName
            (assetInitTx total defaultFrozen)).2 ≠ none ∧
        (MakeAssetCreateTxn dec b64 sign acAccount acFee acFirst acLast acNote
          acGenID acGenHash total defaultFrozen manager reserve frz clawback
          unitName assetName).1
          = (assetParamsPhase dec manager reserve frz clawback unitName
              assetName (assetInitTx total defaultFrozen)).1 ∧
        (MakeAssetCreateTxn dec b64 sign acAccount acFee acFirst acLast acNote
          acGenID acGenHash total defaultFrozen manager reserve frz clawback
          unitName assetName).1.TxType = AssetConfigTx ∧
        (MakeAssetCreateTxn dec b64 sign acAccount acFee acFirst acLast acNote
          acGenID acGenHash total defaultFrozen manager reserve frz clawback
          unitName assetName).1.AssetParams.Total = total ∧
        (MakeAssetCreateTxn dec b64 sign acAccount acFee acFirst acLast acNote
          acGenID acGenHash total defaultFrozen manager reserve frz clawback
          unitName assetName).1.AssetParams.DefaultFrozen = defaultFrozen) ∨
       ((assetParamsPhase dec manager reserve frz clawback unitName assetName
            (assetInitTx total defaultFrozen)).2 = none ∧
        (MakeAssetCreateTxn dec b64 sign acAccount acFee acFirst acLast acNote
          acGenID acGenHash total defaultFrozen manager reserve frz clawback
          unitName assetName).1 = default))) := by
  refine ⟨?_, ?_, ?_⟩
  · unfold MakePaymentTxn
    dsimp only []
    repeat' split
    all_goals intro h
    all_goals first
      | rfl
      | exact absurd rfl h
  · unfold MakeKeyRegTxn
    dsimp only []
    repeat' split
    all_goals intro h
    all_goals first
      | rfl
      | exact absurd rfl h
  · intro h
    unfold MakeAssetCreateTxn at h ⊢
    rcases goSeq_cases (assetParamsPhase dec manager reserve frz clawback
        unitName assetName (assetInitTx total defaultFrozen))
        (assetFinishPhase dec b64 sign acAccount acFee acFirst acLast acNote
          acGenID acGenHash) with ⟨h1, h2⟩ | ⟨h1, h2⟩
    · rw [h2] at h ⊢
      have hinv := assetParamsPhase_fst_inv dec manager reserve frz clawback
        unitName assetName (assetInitTx total defaultFrozen)
      refine ⟨?_, Or.inl ⟨h1, rfl, ?_, ?_, ?_⟩⟩
      · exact hinv.2.2.2.trans rfl
      · exact hinv.1.trans rfl
      · exact hinv.2.1.trans rfl
      · exact hinv.2.2.1.trans rfl
    · rw [h2] at h ⊢
      have hz := assetFinishPhase_err_zero dec b64 sign acAccount acFee
        acFirst acLast acNote acGenID acGenHash _ h
      refine ⟨?_, Or.inr ⟨h1, hz⟩⟩
      exact (congrArg Transaction.Header hz).trans rfl

set_option maxRecDepth 8000 in
/-- Witness for C3 amended: concrete failing inputs for all three
constructors. -/
theorem C3_witness :
    (MakePaymentTxn decS signS "" "B" 5 1 1 2 [] "" "g" [9]).1 = default ∧
    (MakeKeyRegTxn decS b64S signS "" 5 1 2 [] "g" "GH" "GH" "GH" 1 2 3).1
      = default ∧
    ((MakeAssetCreateTxn decS b64S signS "ACC" 5 1 2 [] "g" "GH" 7 false
        "" "" "" "" "123456789" "nm").1.Header = default ∧
     (((assetParamsPhase decS "" "" "" "" "123456789" "nm"
           (assetInitTx 7 false)).2 ≠ none ∧
       (MakeAssetCreateTxn decS b64S signS "ACC" 5 1 2 [] "g" "GH" 7 false
          "" "" "" "" "123456789" "nm").1
         = (assetParamsPhase decS "" "" "" "" "123456789" "nm"
             (assetInitTx 7 false)).1 ∧
       (MakeAssetCreateTxn decS b64S signS "ACC" 5 1 2 [] "g" "GH" 7 false
          "" "" "" "" "123456789" "nm").1.TxType = AssetConfigTx ∧
       (MakeAssetCreateTxn decS b64S signS "ACC" 5 1 2 [] "g" "GH" 7 false
          "" "" "" "" "123456789" "nm").1.AssetParams.Total = 7 ∧
       (MakeAssetCreateTxn decS b64S signS "ACC" 5 1 2 [] "g" "GH" 7 false
          "" "" "" "" "123456789" "nm").1.AssetParams.DefaultFrozen
         = false) ∨
      ((assetParamsPhase decS "" "" "" "" "123456789" "nm"
           (assetInitTx 7 false)).2 = none ∧
       (MakeAssetCreateTxn decS b64S signS "ACC" 5 1 2 [] "g" "GH" 7 false
          "" "" "" "" "123456789" "nm").1 = default))) := by
  have h := C3_amended decS b64S signS "" "B" 5 1 1 2 [] "" "g" [9]
    "" 5 1 2 [] "g" "GH" "GH" "GH" 1 2 3
    "ACC" 5 1 2 [] "g" "GH" 7 false "" "" "" "" "123456789" "nm"
  exact ⟨h.1 (by decide), h.2.1 (by decide), h.2.2 (by decide)⟩

/-- Claim C7: with the optional address strings empty, construction never
consults the address codec on the empty string (the result is the same for
any two codecs that agree on the required addresses), it does not fail on
the empty optional field, and the corresponding fields of a successfully
returned transaction are the all-zero address. -/
theorem C7_empty_optional_addresses
    (dec dec2 : String → Except String Address)
    (b64 : String → Except String (List Nat))
    (sign : Transaction → Except String (List Nat))
    (fromStr toStr : String) (fee amount firstRound lastRound : Nat)
    (note : List Nat) (genesisID : String) (genesisHash : List Nat)
    (acAccount : String) (acFee acFirst acLast : Nat) (acNote : List Nat)
    (acGenID acGenHash : String) (total : Nat) (defaultFrozen : Bool)
    (unitName assetName : String)
    (hfr : dec fromStr = dec2 fromStr) (hto : dec toStr = dec2 toStr)
    (hacct : dec acAccount = dec2 acAccount) :
    (MakePaymentTxn dec sign fromStr toStr fee amount firstRound lastRound
        note "" genesisID genesisHash
      = MakePaymentTxn dec2 sign fromStr toStr fee amount firstRound lastRound
        note "" genesisID genesisHash) ∧
    ((MakePaymentTxn dec sign fromStr toStr fee amount firstRound lastRound
        note "" genesisID genesisHash).2 = none →
      (MakePaymentTxn dec sign fromStr toStr fee amount firstRound lastRound
        note "" genesisID
        genesisHash).1.PaymentTxnFields.CloseRemainderTo = Address.zero) ∧
    (MakeAssetCreateTxn dec b64 sign acAccount acFee acFirst acLast acNote
        acGenID acGenHash total defaultFrozen "" "" "" "" unitName assetName
      = MakeAssetCreateTxn dec2 b64 sign acAccount acFee acFirst acLast acNote
        acGenID acGenHash total defaultFrozen "" "" "" "" unitName
        assetName) ∧
    ((MakeAssetCreateTxn dec b64 sign acAccount acFee acFirst acLast acNote
        acGenID acGenHash total defaultFrozen "" "" "" "" unitName
        assetName).2 = none →
      (MakeAssetCreateTxn dec b64 sign acAccount acFee acFirst acLast acNote
        acGenID acGenHash total defaultFrozen "" "" "" "" unitName
        assetName).1.AssetParams.Manager = Address.zero ∧
      (MakeAssetCreateTxn dec b64 sign acAccount acFee acFirst acLast acNote
        acGenID acGenHash total defaultFrozen "" "" "" "" unitName
        assetName).1.AssetParams.Reserve = Address.zero ∧
      (MakeAssetCreateTxn dec b64 sign acAccount acFee acFirst acLast acNote
        acGenID acGenHash total defaultFrozen "" "" "" "" unitName
        assetName).1.AssetParams.Freeze = Address.zero ∧
      (MakeAssetCreateTxn dec b64 sign acAccount acFee acFirst acLast acNote
        acGenID acGenHash total defaultFrozen "" "" "" "" unitName
        assetName).1.AssetParams.Clawback = Address.zero) := by
  refine ⟨?_, ?_, ?_, ?_⟩
  · simp [MakePaymentTxn, hfr, hto]
  · unfold MakePaymentTxn
    dsimp only []
    repeat' split
    all_goals intro h
    all_goals simp_all [Transaction.setFee]
  · unfold MakeAssetCreateTxn
    rw [assetParamsPhase_empty_dec dec dec2 unitName assetName
      (assetInitTx total defaultFrozen)]
    rw [assetFinishPhase_dec_congr dec dec2 b64 sign acAccount acFee acFirst
      acLast acNote acGenID acGenHash hacct]
  · intro h
    unfold MakeAssetCreateTxn at h ⊢
    rcases goSeq_cases (assetParamsPhase dec "" "" "" "" unitName assetName
        (assetInitTx total defaultFrozen))
        (assetFinishPhase dec b64 sign acAccount acFee acFirst acLast acNote
          acGenID acGenHash) with ⟨h1, h2⟩ | ⟨h1, h2⟩
    · rw [h2] at h
      exact absurd h h1
    · rw [h2] at h ⊢
      have hp : assetParamsPhase dec "" "" "" "" unitName assetName
          (assetInitTx total defaultFrozen)
          = ((assetParamsPhase dec "" "" "" "" unitName assetName
              (assetInitTx total defaultFrozen)).1, none) := by
        rw [← h1]
      have hflds := assetParamsPhase_empty_params dec unitName assetName
        (assetInitTx total defaultFrozen) _ hp
      have hok := assetFinishPhase_ok_params dec b64 sign acAccount acFee
        acFirst acLast acNote acGenID acGenHash _ h
      rw [hok]
      rw [hflds.1, hflds.2.1, hflds.2.2.1, hflds.2.2.2]
      exact ⟨rfl, rfl, rfl, rfl⟩

set_option maxRecDepth 8000 in
/-- Witness for C7: a codec that differs on the empty string gives the same
transactions, and the optional-address fields come back zero. -/
theorem C7_witness :
    (MakePaymentTxn decS signS "A" "B" 5 1 1 2 [] "" "g" [9]
      = MakePaymentTxn decD signS "A" "B" 5 1 1 2 [] "" "g" [9]) ∧
    (MakePaymentTxn decS signS "A" "B" 5 1 1 2 [] "" "g"
      [9]).1.PaymentTxnFields.CloseRemainderTo = Address.zero ∧
    (MakeAssetCreateTxn decS b64S signS "ACC" 5 1 2 [] "g" "GH" 7 false
      "" "" "" "" "T" "N").1.AssetParams.Manager = Address.zero := by
  have h := C7_empty_optional_addresses decS decD b64S signS "A" "B" 5 1 1 2
    [] "g" [9] "ACC" 5 1 2 [] "g" "GH" 7 false "T" "N" rfl rfl rfl
  exact ⟨h.1, h.2.1 (by decide), (h.2.2.2 (by decide)).1⟩

end AlgoSDK
